import Mathlib

/-!
Shallow embedding of the FHIR patient dashboard core
(src/src/components/Dashboard.jsx): the FHIR resource parsers
(parseFhirPatient, parseFhirObservation), the LOINC registry
(VITAL_CODES), the trend synthesizer (generateTrend and the periodic
drift tick), the clinical status classifier (getStatus) and the vitals
merge performed by loadPatient.  JS numbers are modelled by ℚ, absent
or null JS values by Option, and Math.random draws by an explicit
stream of rationals in [0, 1).
-/

namespace FhirDashboard

/-- Provenance tag of a channel: the source field of the code, whose
string constants are 'sim' and 'fhir'. -/
inductive Source where
  | sim : Source
  | fhir : Source
  deriving DecidableEq

/-- One point of a trend series: the objects produced by generateTrend
and by the drift tick, with a time label and a numeric value. -/
structure TrendPoint where
  time : String
  value : ℚ
  deriving DecidableEq

/-- A scalar vitals channel (hr, spo2, temp, rr): current value, trend
series and provenance, as stored in the vitals state object.  The
current value is a number or a formatted numeric string in the code;
both are modelled by the rational they denote. -/
structure ScalarChannel where
  value : ℚ
  trend : List TrendPoint
  source : Source
  deriving DecidableEq

/-- The blood-pressure channel: systolic and diastolic values and
provenance, no trend series.  The diastolic slot is an Option because
the merge writes Math.round of a possibly absent component value there
(Math.round(undefined) is NaN in JS, modelled by none). -/
structure BpChannel where
  sys : ℚ
  dia : Option ℚ
  source : Source
  deriving DecidableEq

/-- The vitals snapshot: the five channels of the vitals state. -/
structure Vitals where
  hr : ScalarChannel
  spo2 : ScalarChannel
  temp : ScalarChannel
  rr : ScalarChannel
  bp : BpChannel
  deriving DecidableEq

/-- One entry of a coding list, as read by the parsers: code and
display, each possibly absent. -/
structure Coding where
  code : Option String
  display : Option String
  deriving DecidableEq

/-- A codeable concept: a coding list and a text, each possibly
absent. -/
structure CodeableConcept where
  coding : Option (List Coding)
  text : Option String
  deriving DecidableEq

/-- A FHIR human name: given names and family name, each possibly
absent. -/
structure HumanName where
  given : Option (List String)
  family : Option String
  deriving DecidableEq

/-- A FHIR identifier entry: its type concept and its value. -/
structure Identifier where
  type : Option CodeableConcept
  value : Option String
  deriving DecidableEq

/-- The fields of a raw FHIR Patient resource that parseFhirPatient
reads; every field may be absent. -/
structure PatientResource where
  id : Option String
  name : Option (List HumanName)
  gender : Option String
  birthDate : Option String
  identifier : Option (List Identifier)
  deriving DecidableEq

/-- The record produced by parseFhirPatient.  The name field is always
a string (JS string concatenation never yields undefined). -/
structure PatientRecord where
  id : Option String
  name : String
  gender : Option String
  birthDate : Option String
  mrn : Option String
  deriving DecidableEq

/-- A FHIR quantity: numeric value and unit, each possibly absent. -/
structure Quantity where
  value : Option ℚ
  unit : Option String
  deriving DecidableEq

/-- One component of an Observation resource (used by blood-pressure
panels): a code concept and a value quantity. -/
structure ObsComponent where
  code : Option CodeableConcept
  valueQuantity : Option Quantity
  deriving DecidableEq

/-- The fields of a raw FHIR Observation resource that
parseFhirObservation reads. -/
structure ObsResource where
  code : Option CodeableConcept
  valueQuantity : Option Quantity
  component : Option (List ObsComponent)
  effectiveDateTime : Option String
  deriving DecidableEq

/-- The record produced by parseFhirObservation.  The JS object has
either value and unit fields (scalar shape) or systolic and diastolic
fields (panel shape); reading a field the shape does not carry yields
undefined, so all four are Options here and the parser sets the ones
the taken branch does not write to none. -/
structure ObsRecord where
  code : Option String
  display : Option String
  value : Option ℚ
  unit : Option String
  systolic : Option ℚ
  diastolic : Option ℚ
  date : Option String
  deriving DecidableEq

/-- JS a || b for strings: a when a is a non-empty string, else b
(undefined and the empty string are falsy). -/
def jsOrString (a b : Option String) : Option String :=
  match a with
  | some s => if s = "" then b else some s
  | none => b

/-- JS string concatenation whose left operand may be undefined:
undefined + ' ' evaluates to the string "undefined ". -/
def jsConcatUndef (a : Option String) (b : String) : String :=
  (match a with
   | some s => s
   | none => "undefined") ++ b

/-- Embedding of parseFhirPatient (Dashboard.jsx lines 8 to 14): id,
display name built by JS string concatenation from the first name
entry, gender, birthDate, and mrn from the first identifier whose type
coding code is MR, falling back to the resource id. -/
def parseFhirPatient (resource : PatientResource) : PatientRecord :=
  let name0 := resource.name.bind List.head?
  let givenJoined := (name0.bind HumanName.given).map (String.intercalate " ")
  let familyStr := (name0.bind HumanName.family).getD ""
  let mrFound := resource.identifier.bind
    (List.find? (fun i =>
      ((i.type.bind CodeableConcept.coding).bind List.head?).bind Coding.code == some "MR"))
  { id := resource.id,
    name := jsConcatUndef givenJoined " " ++ familyStr,
    gender := resource.gender,
    birthDate := resource.birthDate,
    mrn := jsOrString (mrFound.bind Identifier.value) resource.id }

/-- First coding code of a codeable concept, as the parsers read it:
concept.coding[0].code with optional chaining. -/
def firstCodingCode (c : Option CodeableConcept) : Option String :=
  ((c.bind CodeableConcept.coding).bind List.head?).bind Coding.code

/-- Value of the first component whose first coding code equals c:
component.find(x => x.code.coding[0].code === c).valueQuantity.value. -/
def componentValue (comps : List ObsComponent) (c : String) : Option ℚ :=
  ((comps.find? (fun comp => firstCodingCode comp.code == some c)).bind
    ObsComponent.valueQuantity).bind Quantity.value

/-- Embedding of parseFhirObservation (Dashboard.jsx lines 16 to 33):
with a valueQuantity present the scalar branch is taken (value may
still be absent inside it, unit falls back to the empty string); else
with a component list present the panel branch extracts the systolic
and diastolic sub-values by code search; else a record with null value
and empty unit is returned. -/
def parseFhirObservation (o : ObsResource) : ObsRecord :=
  let code := firstCodingCode o.code
  let display :=
    jsOrString (((o.code.bind CodeableConcept.coding).bind List.head?).bind Coding.display)
      (o.code.bind CodeableConcept.text)
  match o.valueQuantity with
  | some q =>
      { code := code, display := display, value := q.value, unit := some (q.unit.getD ""),
        systolic := none, diastolic := none, date := o.effectiveDateTime }
  | none =>
      match o.component with
      | some comps =>
          { code := code, display := display, value := none, unit := none,
            systolic := componentValue comps "8480-6",
            diastolic := componentValue comps "8462-4",
            date := o.effectiveDateTime }
      | none =>
          { code := code, display := display, value := none, unit := some "",
            systolic := none, diastolic := none, date := o.effectiveDateTime }

/-- The vital-sign channel identifiers appearing as values of the
VITAL_CODES table. -/
inductive VitalType where
  | hr : VitalType
  | spo2 : VitalType
  | temp : VitalType
  | rr : VitalType
  | bp : VitalType
  | bpSys : VitalType
  | bpDia : VitalType
  deriving DecidableEq

/-- Embedding of the VITAL_CODES table (Dashboard.jsx lines 36 to 44):
lookup of a LOINC code, absent for any code outside the table. -/
def VITAL_CODES (code : String) : Option VitalType :=
  if code = "8867-4" then some VitalType.hr
  else if code = "2708-6" then some VitalType.spo2
  else if code = "8310-5" then some VitalType.temp
  else if code = "9279-1" then some VitalType.rr
  else if code = "85354-9" then some VitalType.bp
  else if code = "8480-6" then some VitalType.bpSys
  else if code = "8462-4" then some VitalType.bpDia
  else none

/-- Two-digit zero padding of a decimal string, as padStart(2, '0')
produces it. -/
def padTwo (s : String) : String :=
  if s.length ≥ 2 then s else if s.length = 1 then "0" ++ s else "00"

/-- The synthetic time label of trend point i: half-hour increments
from 00:00, derived from the index only. -/
def timeLabel (i : ℕ) : String :=
  padTwo (toString (i / 2)) ++ ":" ++ (if i % 2 = 0 then "00" else "30")

/-- Embedding of generateTrend (Dashboard.jsx lines 46 to 50): count
points whose value is base + (random - 0.5) * variance, with the draw
of point i supplied by r i, and the synthetic time label of index i. -/
def generateTrend (base variance : ℚ) (r : ℕ → ℚ) (count : ℕ) : List TrendPoint :=
  (List.range count).map (fun i =>
    { time := timeLabel i, value := base + (r i - 1/2) * variance })

/-- Math.round on the model: round half up to an integer, as JS does
(Math.round(-0.5) is -0, matching the floor of x + 1/2). -/
def jsRound (q : ℚ) : ℚ := ((round q : ℤ) : ℚ)

/-- The toFixed(1) formatting followed by the parseFloat the code later
applies to the stored string, modelled as rounding to one decimal
place. -/
def toFixed1 (q : ℚ) : ℚ := ((round (10 * q) : ℤ) : ℚ) / 10

/-- JS truthiness of a possibly absent number: undefined, null and 0
are falsy (NaN is outside the model). -/
def truthyQ : Option ℚ → Bool
  | none => false
  | some q => decide (q ≠ 0)

/-- The clinical status tiers returned by getStatus. -/
inductive Status where
  | normal : Status
  | warning : Status
  | critical : Status
  deriving DecidableEq

/-- Embedding of getStatus (Dashboard.jsx lines 223 to 226): normal
when min ≤ v ≤ max, else critical when v < min * 0.9 or v > max * 1.1,
else warning. -/
def getStatus (v low high : ℚ) : Status :=
  if low ≤ v ∧ v ≤ high then Status.normal
  else if v < low * (9/10) ∨ v > high * (11/10) then Status.critical
  else Status.warning

/-- Restatement of the classifier rule in the words of the
specification (section 4.4), to be compared with getStatus: normal if
low ≤ value ≤ high; critical if value < low * 0.9 or
value > high * 1.1; warning otherwise. -/
def classifySpec (value low high : ℚ) : Status :=
  if low ≤ value ∧ value ≤ high then Status.normal
  else if value < low * (9/10) ∨ value > high * (11/10) then Status.critical
  else Status.warning

/-- Embedding of the per-observation merge step of loadPatient
(Dashboard.jsx lines 184 to 197): resolve the observation code through
VITAL_CODES; on a scalar channel match with a truthy value, overwrite
that channel with the rounded (temp: one-decimal) value, a trend
regenerated around the raw value, and provenance fhir; on a bp match
with a truthy systolic, overwrite the bp channel; otherwise leave the
vitals unchanged.  r supplies the Math.random draws of the regenerated
trend. -/
def mergeObs (r : ℕ → ℚ) (v : Vitals) (o : ObsRecord) : Vitals :=
  let vitalType := o.code.bind VITAL_CODES
  if vitalType = some VitalType.hr ∧ truthyQ o.value then
    { v with hr := { value := jsRound (o.value.getD 0),
                     trend := generateTrend (o.value.getD 0) 15 r 20,
                     source := Source.fhir } }
  else if vitalType = some VitalType.spo2 ∧ truthyQ o.value then
    { v with spo2 := { value := jsRound (o.value.getD 0),
                       trend := generateTrend (o.value.getD 0) 3 r 20,
                       source := Source.fhir } }
  else if vitalType = some VitalType.temp ∧ truthyQ o.value then
    { v with temp := { value := toFixed1 (o.value.getD 0),
                       trend := generateTrend (o.value.getD 0) (8/10) r 20,
                       source := Source.fhir } }
  else if vitalType = some VitalType.rr ∧ truthyQ o.value then
    { v with rr := { value := jsRound (o.value.getD 0),
                     trend := generateTrend (o.value.getD 0) 4 r 20,
                     source := Source.fhir } }
  else if vitalType = some VitalType.bp ∧ truthyQ o.systolic then
    { v with bp := { sys := jsRound (o.systolic.getD 0),
                     dia := o.diastolic.map jsRound,
                     source := Source.fhir } }
  else v

/-- The forEach over the parsed observations, threaded with the index
of each observation so that each merge step gets its own stream of
random draws. -/
def mergeListFrom (r : ℕ → ℕ → ℚ) (i : ℕ) (v : Vitals) : List ObsRecord → Vitals
  | [] => v
  | o :: rest => mergeListFrom r (i + 1) (mergeObs (r i) v o) rest

/-- Merge of a list of parsed observations into the vitals, in bundle
order, as the forEach of loadPatient performs it. -/
def mergeList (r : ℕ → ℕ → ℚ) (v : Vitals) (l : List ObsRecord) : Vitals :=
  mergeListFrom r 0 v l

/-- The vitals update of loadPatient for a present observation bundle:
parse every entry, then merge the parsed records in order. -/
def loadVitals (r : ℕ → ℕ → ℚ) (v : Vitals) (entries : List ObsResource) : Vitals :=
  mergeList r v (entries.map parseFhirObservation)

/-- The dashboard state touched by loadPatient: the current patient
slot, the vitals snapshot, and the connected flag of the fhirStatus
state. -/
structure DashState where
  patient : Option PatientRecord
  vitals : Vitals
  connected : Bool
  deriving DecidableEq

/-- Where a loadPatient run stops.  patFail: the patient fetch or its
JSON parse throws, before setPatient runs.  obsFail p: the patient
fetch succeeded with resource p and setPatient already ran, then the
observation fetch, its JSON parse or the observation processing threw.
ok p entries: both fetches succeeded; entries is the entry list of the
observation bundle, absent when the bundle has no entry field. -/
inductive LoadOutcome where
  | patFail : LoadOutcome
  | obsFail : PatientResource → LoadOutcome
  | ok : PatientResource → Option (List ObsResource) → LoadOutcome

/-- Embedding of loadPatient (Dashboard.jsx lines 171 to 207) as a
state transformer over the outcome of its two fetches.  On patFail the
catch block only clears the connected flag; on obsFail the patient was
already replaced before the throw and the catch block clears the
connected flag; on ok the patient is replaced, the vitals are merged
when an entry list is present, and the connected flag is set. -/
def loadPatient (r : ℕ → ℕ → ℚ) (s : DashState) : LoadOutcome → DashState
  | LoadOutcome.patFail => { s with connected := false }
  | LoadOutcome.obsFail p =>
      { patient := some (parseFhirPatient p), vitals := s.vitals, connected := false }
  | LoadOutcome.ok p entries =>
      { patient := some (parseFhirPatient p),
        vitals := match entries with
          | none => s.vitals
          | some l => loadVitals r s.vitals l,
        connected := true }

/-- Embedding of the periodic drift update (Dashboard.jsx lines 212 to
218).  The ten Math.random draws of one tick are supplied by r in
source evaluation order: value then trend draw for hr, spo2, temp, rr,
then the sys and dia draws of bp.  Each scalar channel's new value is
the previous value plus its own scaled draw (spo2 clamped to [94, 100],
temp kept at one decimal); each trend drops its oldest point and
appends a point at the previous value plus a separate scaled draw; bp
nudges sys and dia by rounded scaled draws. -/
def driftTick (r : ℕ → ℚ) (v : Vitals) : Vitals :=
  { hr := { value := jsRound (v.hr.value + (r 0 - 1/2) * 4),
            trend := v.hr.trend.drop 1 ++ [{ time := "now", value := v.hr.value + (r 1 - 1/2) * 5 }],
            source := v.hr.source },
    spo2 := { value := max 94 (min 100 (jsRound (v.spo2.value + (r 2 - 1/2) * 2))),
              trend := v.spo2.trend.drop 1 ++ [{ time := "now", value := v.spo2.value + (r 3 - 1/2) * 2 }],
              source := v.spo2.source },
    temp := { value := toFixed1 (v.temp.value + (r 4 - 1/2) * (1/10)),
              trend := v.temp.trend.drop 1 ++ [{ time := "now", value := v.temp.value + (r 5 - 1/2) * (2/10) }],
              source := v.temp.source },
    rr := { value := jsRound (v.rr.value + (r 6 - 1/2) * 2),
            trend := v.rr.trend.drop 1 ++ [{ time := "now", value := v.rr.value + (r 7 - 1/2) * 2 }],
            source := v.rr.source },
    bp := { sys := jsRound (v.bp.sys + (r 8 - 1/2) * 4),
            dia := v.bp.dia.map (fun d => jsRound (d + (r 9 - 1/2) * 3)),
            source := v.bp.source } }

/-- A concrete vitals snapshot used by witnesses and counterexamples:
the initial baselines of the vitals state with one-point trends. -/
def demoVitals : Vitals :=
  { hr := { value := 72, trend := [{ time := "00:00", value := 72 }], source := Source.sim },
    spo2 := { value := 98, trend := [{ time := "00:00", value := 98 }], source := Source.sim },
    temp := { value := 372/10, trend := [{ time := "00:00", value := 372/10 }], source := Source.sim },
    rr := { value := 16, trend := [{ time := "00:00", value := 16 }], source := Source.sim },
    bp := { sys := 118, dia := some 76, source := Source.sim } }

/-- A concrete blood-pressure component with the given code and
value. -/
def bpComponent (c : String) (q : ℚ) : ObsComponent :=
  { code := some { coding := some [{ code := some c, display := none }], text := none },
    valueQuantity := some { value := some q, unit := some "mmHg" } }

/-- A concrete blood-pressure panel resource with systolic 120 and
diastolic 80 components. -/
def bpResourceFull : ObsResource :=
  { code := some { coding := some [{ code := some "85354-9", display := none }], text := none },
    valueQuantity := none,
    component := some [bpComponent "8480-6" 120, bpComponent "8462-4" 80],
    effectiveDateTime := none }

/-- A concrete blood-pressure panel resource carrying only the
systolic component. -/
def bpResourceSysOnly : ObsResource :=
  { code := some { coding := some [{ code := some "85354-9", display := none }], text := none },
    valueQuantity := none,
    component := some [bpComponent "8480-6" 120],
    effectiveDateTime := none }

/-- A concrete heart-rate observation resource with a scalar reading
of 85. -/
def hrResource85 : ObsResource :=
  { code := some { coding := some [{ code := some "8867-4", display := some "Heart rate" }],
                   text := none },
    valueQuantity := some { value := some 85, unit := some "beats/min" },
    component := none,
    effectiveDateTime := none }

/-- A concrete parsed observation whose code is outside the
VITAL_CODES table. -/
def unknownObs : ObsRecord :=
  { code := some "9999-9", display := none, value := some 50, unit := some "",
    systolic := none, diastolic := none, date := none }

/-- A concrete parsed heart-rate observation whose value is 0, hence
falsy in JS. -/
def zeroHrObs : ObsRecord :=
  { code := some "8867-4", display := none, value := some 0, unit := some "",
    systolic := none, diastolic := none, date := none }

/-- A concrete patient resource named Ann Lee. -/
def patResA : PatientResource :=
  { id := some "pa", name := some [{ given := some ["Ann"], family := some "Lee" }],
    gender := none, birthDate := none, identifier := none }

/-- A concrete patient resource named Bob Ray. -/
def patResB : PatientResource :=
  { id := some "pb", name := some [{ given := some ["Bob"], family := some "Ray" }],
    gender := none, birthDate := none, identifier := none }

/-- A concrete dashboard state: patient Ann Lee loaded, demo vitals,
connected. -/
def demoState : DashState :=
  { patient := some (parseFhirPatient patResA), vitals := demoVitals, connected := true }

/-- A concrete random stream whose first draw is 0 and whose other
draws are 1/2, separating the value draw from the trend draw of the
drift tick. -/
def driftRand : ℕ → ℚ := fun n => if n = 0 then 0 else 1/2

/-- Dropping the head and appending one element preserves the length
of a non-empty list. -/
theorem drop_one_append_length {α : Type} (l : List α) (x : α) (h : l ≠ []) :
    (l.drop 1 ++ [x]).length = l.length := by
  have hpos : 0 < l.length := List.length_pos.mpr h
  simp [List.length_drop]
  omega

/-- C1: for every numeric value, low and high, the classifier returns
normal if low ≤ value ≤ high, otherwise critical if value < low * 0.9
or value > high * 1.1, otherwise warning: getStatus coincides with the
rule as the specification states it. -/
theorem getStatus_refines_classifySpec (v low high : ℚ) :
    getStatus v low high = classifySpec v low high := rfl

/-- C5 counterexample: at value 54 with bounds 60 and 100 the
classifier does not return critical (54 is not strictly below
60 * 0.9 = 54), contradicting the claim that classify(54, 60, 100) is
critical. -/
theorem getStatus_54_not_critical : getStatus 54 60 100 ≠ Status.critical := by
  norm_num [getStatus]
  intro h
  exact Status.noConfusion h

/-- C5 amended: classify(60, 60, 100) is normal, and
classify(54, 60, 100), the value exactly at low * 0.9, is warning
because the critical comparison is strict. -/
theorem getStatus_boundary : getStatus 60 60 100 = Status.normal ∧
    getStatus 54 60 100 = Status.warning := by
  constructor <;> norm_num [getStatus]

/-- C4: evaluation of parseFhirPatient at a resource with every field
absent: it does not fail, gender, birthDate, mrn and id are absent,
but the display name is the literal string "undefined " (JS evaluates
undefined + ' ' to "undefined "), a placeholder artifact instead of
the absent text the claim requires. -/
theorem parseFhirPatient_missing_name_artifact :
    parseFhirPatient ⟨none, none, none, none, none⟩ =
      ⟨none, "undefined ", none, none, none⟩ := by
  decide

/-- C3 counterexample: a load that fails at the observation fetch has
already replaced the patient identity, contradicting the claim that
the current patient identity is left unchanged on every fetch
failure. -/
theorem loadPatient_obsFail_changes_patient :
    (loadPatient (fun _ _ => 1/2) demoState (LoadOutcome.obsFail patResB)).patient ≠
      demoState.patient := by decide

/-- C3 amended: on every failed load the vitals snapshot is left
intact and the connectivity flag flips to disconnected; the patient
identity is unchanged when the patient fetch itself fails, but a
failure during the observation fetch leaves the patient identity
already replaced by the newly fetched patient. -/
theorem loadPatient_failure_frame (r : ℕ → ℕ → ℚ) (s : DashState) :
    ((loadPatient r s LoadOutcome.patFail).vitals = s.vitals ∧
     (loadPatient r s LoadOutcome.patFail).connected = false ∧
     (loadPatient r s LoadOutcome.patFail).patient = s.patient) ∧
    (∀ p, (loadPatient r s (LoadOutcome.obsFail p)).vitals = s.vitals ∧
      (loadPatient r s (LoadOutcome.obsFail p)).connected = false ∧
      (loadPatient r s (LoadOutcome.obsFail p)).patient = some (parseFhirPatient p)) :=
  ⟨⟨rfl, rfl, rfl⟩, fun _ => ⟨rfl, rfl, rfl⟩⟩

/-- C6: an observation with no direct quantity value and a component
list parses to a panel record whose systolic and diastolic sides are
the values of the components with first coding code 8480-6 and 8462-4
(absent when no such component exists), with absent value and unit. -/
theorem parseFhirObservation_panel (o : ObsResource) (comps : List ObsComponent)
    (hvq : o.valueQuantity = none) (hc : o.component = some comps) :
    (parseFhirObservation o).systolic = componentValue comps "8480-6" ∧
    (parseFhirObservation o).diastolic = componentValue comps "8462-4" ∧
    (parseFhirObservation o).value = none ∧
    (parseFhirObservation o).unit = none := by
  simp [parseFhirObservation, hvq, hc]

/-- C6 witness: the panel theorem applied to concrete resources, with
components 8480-6 = 120 and 8462-4 = 80 yielding systolic 120 and
diastolic 80, and with the diastolic component missing yielding an
absent diastolic side. -/
theorem parseFhirObservation_panel_check :
    (parseFhirObservation bpResourceFull).systolic = some 120 ∧
    (parseFhirObservation bpResourceFull).diastolic = some 80 ∧
    (parseFhirObservation bpResourceSysOnly).systolic = some 120 ∧
    (parseFhirObservation bpResourceSysOnly).diastolic = none := by
  have h1 := parseFhirObservation_panel bpResourceFull _ rfl rfl
  have h2 := parseFhirObservation_panel bpResourceSysOnly _ rfl rfl
  exact ⟨h1.1.trans (by decide), h1.2.1.trans (by decide),
    h2.1.trans (by decide), h2.2.1.trans (by decide)⟩

/-- C7: a LOINC code outside the seven-entry table resolves to absent,
and an observation carrying such a code leaves the vitals unchanged,
both as a single merge step and as a one-entry bundle merge. -/
theorem vitalCodes_unknown_ignored (c : String)
    (hc : c ∉ ["8867-4", "2708-6", "8310-5", "9279-1", "85354-9", "8480-6", "8462-4"]) :
    VITAL_CODES c = none ∧
    (∀ (r : ℕ → ℚ) (v : Vitals) (o : ObsRecord), o.code = some c → mergeObs r v o = v) ∧
    (∀ (r2 : ℕ → ℕ → ℚ) (v : Vitals) (o : ObsRecord), o.code = some c →
      mergeList r2 v [o] = v) := by
  simp only [List.mem_cons, List.not_mem_nil, or_false, not_or] at hc
  obtain ⟨h1, h2, h3, h4, h5, h6, h7⟩ := hc
  have hv : VITAL_CODES c = none := by
    simp [VITAL_CODES, h1, h2, h3, h4, h5, h6, h7]
  refine ⟨hv, ?_, ?_⟩
  · intro r v o ho
    simp [mergeObs, ho, hv]
  · intro r2 v o ho
    simp [mergeList, mergeListFrom, mergeObs, ho, hv]

/-- C7 witness: the unknown-code theorem applied to the concrete code
9999-9 and a concrete observation and snapshot. -/
theorem vitalCodes_unknown_ignored_check :
    VITAL_CODES "9999-9" = none ∧
    mergeObs (fun _ => 1/2) demoVitals unknownObs = demoVitals := by
  have h := vitalCodes_unknown_ignored "9999-9" (by decide)
  exact ⟨h.1, h.2.1 (fun _ => 1/2) demoVitals unknownObs rfl⟩

/-- C10: the per-channel update of the merge is gated on JS truthiness
of the extracted value: an observation resolving to a scalar channel
whose value is 0 or absent, and a blood-pressure panel whose systolic
is 0 or absent, leave the vitals unchanged. -/
theorem mergeObs_gated_on_truthiness (r : ℕ → ℚ) (v : Vitals) (o : ObsRecord) :
    (∀ vt, o.code.bind VITAL_CODES = some vt →
      (vt = VitalType.hr ∨ vt = VitalType.spo2 ∨ vt = VitalType.temp ∨ vt = VitalType.rr) →
      o.value = none ∨ o.value = some 0 → mergeObs r v o = v) ∧
    (o.code.bind VITAL_CODES = some VitalType.bp →
      o.systolic = none ∨ o.systolic = some 0 → mergeObs r v o = v) := by
  constructor
  · intro vt hvt hscalar hval
    have hfalse : truthyQ o.value = false := by
      rcases hval with h | h <;> simp [truthyQ, h]
    rcases hscalar with rfl | rfl | rfl | rfl <;> simp [mergeObs, hvt, hfalse]
  · intro hvt hsys
    have hfalse : truthyQ o.systolic = false := by
      rcases hsys with h | h <;> simp [truthyQ, h]
    simp [mergeObs, hvt, hfalse]

/-- C10 witness: the truthiness-gating theorem applied to a concrete
heart-rate observation with value 0 and a concrete snapshot. -/
theorem mergeObs_gated_check :
    mergeObs (fun _ => 1/2) demoVitals zeroHrObs = demoVitals :=
  (mergeObs_gated_on_truthiness (fun _ => 1/2) demoVitals zeroHrObs).1 VitalType.hr
    (by decide) (Or.inl rfl) (Or.inr rfl)

/-- C2: merging a bundle whose only observation is a heart-rate scalar
reading of 85 sets the hr channel to value 85 with provenance fhir and
a trend regenerated around baseline 85, and leaves the spo2, temp, rr
and bp channels equal to their prior state. -/
theorem loadVitals_hr85 (v : Vitals) (r : ℕ → ℕ → ℚ) (o : ObsResource) (q : Quantity)
    (hcode : firstCodingCode o.code = some "8867-4")
    (hq : o.valueQuantity = some q) (hv : q.value = some 85) :
    (loadVitals r v [o]).hr =
      { value := 85, trend := generateTrend 85 15 (r 0) 20, source := Source.fhir } ∧
    (loadVitals r v [o]).spo2 = v.spo2 ∧
    (loadVitals r v [o]).temp = v.temp ∧
    (loadVitals r v [o]).rr = v.rr ∧
    (loadVitals r v [o]).bp = v.bp := by
  have hload : loadVitals r v [o] = mergeObs (r 0) v (parseFhirObservation o) := rfl
  have hpc : (parseFhirObservation o).code = some "8867-4" := by
    simp [parseFhirObservation, hq]
    exact hcode
  have hpv : (parseFhirObservation o).value = some 85 := by
    simp [parseFhirObservation, hq, hv]
  have h85 : jsRound 85 = 85 := by
    norm_num [jsRound]
  have hmerge : mergeObs (r 0) v (parseFhirObservation o) =
      { v with hr := { value := 85, trend := generateTrend 85 15 (r 0) 20,
                       source := Source.fhir } } := by
    simp [mergeObs, hpc, hpv, truthyQ, VITAL_CODES, h85]
  rw [hload, hmerge]
  exact ⟨rfl, rfl, rfl, rfl, rfl⟩

/-- C2 witness: the merge theorem applied to a concrete snapshot and a
concrete heart-rate resource with reading 85. -/
theorem loadVitals_hr85_check :
    (loadVitals (fun _ _ => 1/2) demoVitals [hrResource85]).hr =
      { value := 85, trend := generateTrend 85 15 (fun _ => 1/2) 20, source := Source.fhir } ∧
    (loadVitals (fun _ _ => 1/2) demoVitals [hrResource85]).bp = demoVitals.bp := by
  have h := loadVitals_hr85 demoVitals (fun _ _ => 1/2) hrResource85
    { value := some 85, unit := some "beats/min" } (by decide) rfl rfl
  exact ⟨h.1, h.2.2.2.2⟩

/-- C9: for every stream of draws in [0, 1), generateTrend at baseline
72, variance 15 and count 20 yields exactly 20 points, every point
value lies in the closed band from 72 - 7.5 to 72 + 7.5, point i
carries the synthetic half-hour time label of its index, and the
labels start at 00:00. -/
theorem generateTrend_72_15_20_spec (r : ℕ → ℚ) (h : ∀ i, 0 ≤ r i ∧ r i < 1) :
    (generateTrend 72 15 r 20).length = 20 ∧
    (∀ p ∈ generateTrend 72 15 r 20, 72 - 15/2 ≤ p.value ∧ p.value ≤ 72 + 15/2) ∧
    (∀ i, i < 20 → (generateTrend 72 15 r 20)[i]? =
      some { time := timeLabel i, value := 72 + (r i - 1/2) * 15 }) ∧
    timeLabel 0 = "00:00" := by
  refine ⟨by simp [generateTrend], ?_, ?_, by decide⟩
  · intro p hp
    simp only [generateTrend, List.mem_map, List.mem_range] at hp
    obtain ⟨i, hi, rfl⟩ := hp
    have h1 := (h i).1
    have h2 := (h i).2
    constructor
    · simp only
      nlinarith
    · simp only
      nlinarith
  · intro i hi
    simp [generateTrend, List.getElem?_map, List.getElem?_range, hi]

/-- C9 witness: the generateTrend theorem applied to the constant
draw 1/2. -/
theorem generateTrend_72_15_20_check :
    (generateTrend 72 15 (fun _ => 1/2) 20).length = 20 ∧
    (generateTrend 72 15 (fun _ => 1/2) 20)[0]? =
      some { time := timeLabel 0, value := 72 + ((1:ℚ)/2 - 1/2) * 15 } := by
  have h := generateTrend_72_15_20_spec (fun _ => 1/2) (fun i => by norm_num)
  exact ⟨h.1, h.2.2.1 0 (by norm_num)⟩

/-- C8 counterexample: on a drift tick whose value draw is 0 and whose
trend draw is 1/2, the hr channel's new current value is 70 while the
advanced series' endpoint is 72, so the new current value is not
derived from the advanced series' endpoint as the claim states. -/
theorem driftTick_value_not_endpoint :
    (driftTick driftRand demoVitals).hr.value = 70 ∧
    ((driftTick driftRand demoVitals).hr.trend.getLast?).map TrendPoint.value = some 72 ∧
    (driftTick driftRand demoVitals).hr.value ≠ 72 := by
  refine ⟨?_, ?_, ?_⟩
  · show jsRound (72 + (driftRand 0 - 1/2) * 4) = 70
    norm_num [driftRand, jsRound, round_eq]
  · show (([{ time := "00:00", value := 72 }].drop 1 ++
      [{ time := "now", value := 72 + (driftRand 1 - 1/2) * 5 }] :
        List TrendPoint).getLast?).map TrendPoint.value = some 72
    norm_num [driftRand]
  · show jsRound (72 + (driftRand 0 - 1/2) * 4) ≠ 72
    norm_num [driftRand, jsRound, round_eq]

/-- C8 amended: a drift tick advances each of the four scalar
channels' trends by dropping the oldest point and appending exactly
one point at the previous current value plus a scaled centered draw
(scale 5 for hr, 2 for spo2, 0.2 for temp, 2 for rr, so the appended
point moves by at most half the scale), preserving the window length
of a non-empty series; each channel's new current value is computed
from the previous current value with its own independent draw (spo2
clamped to [94, 100], temp rounded to one decimal), not from the
series' endpoint; and the bp panel's systolic and diastolic are both
nudged by rounded scaled draws, the systolic moving by at most 5/2
and the diastolic by at most 2. -/
theorem driftTick_spec (r : ℕ → ℚ) (v : Vitals)
    (hrand : ∀ i, 0 ≤ r i ∧ r i < 1)
    (hhr : v.hr.trend ≠ []) (hspo2 : v.spo2.trend ≠ [])
    (htemp : v.temp.trend ≠ []) (hrr : v.rr.trend ≠ []) :
    (driftTick r v).hr.trend =
      v.hr.trend.drop 1 ++ [{ time := "now", value := v.hr.value + (r 1 - 1/2) * 5 }] ∧
    (driftTick r v).spo2.trend =
      v.spo2.trend.drop 1 ++ [{ time := "now", value := v.spo2.value + (r 3 - 1/2) * 2 }] ∧
    (driftTick r v).temp.trend =
      v.temp.trend.drop 1 ++ [{ time := "now", value := v.temp.value + (r 5 - 1/2) * (2/10) }] ∧
    (driftTick r v).rr.trend =
      v.rr.trend.drop 1 ++ [{ time := "now", value := v.rr.value + (r 7 - 1/2) * 2 }] ∧
    (driftTick r v).hr.trend.length = v.hr.trend.length ∧
    (driftTick r v).spo2.trend.length = v.spo2.trend.length ∧
    (driftTick r v).temp.trend.length = v.temp.trend.length ∧
    (driftTick r v).rr.trend.length = v.rr.trend.length ∧
    |(v.hr.value + (r 1 - 1/2) * 5) - v.hr.value| ≤ 5/2 ∧
    |(v.spo2.value + (r 3 - 1/2) * 2) - v.spo2.value| ≤ 1 ∧
    |(v.temp.value + (r 5 - 1/2) * (2/10)) - v.temp.value| ≤ 1/10 ∧
    |(v.rr.value + (r 7 - 1/2) * 2) - v.rr.value| ≤ 1 ∧
    (driftTick r v).hr.value = jsRound (v.hr.value + (r 0 - 1/2) * 4) ∧
    (driftTick r v).spo2.value = max 94 (min 100 (jsRound (v.spo2.value + (r 2 - 1/2) * 2))) ∧
    (driftTick r v).temp.value = toFixed1 (v.temp.value + (r 4 - 1/2) * (1/10)) ∧
    (driftTick r v).rr.value = jsRound (v.rr.value + (r 6 - 1/2) * 2) ∧
    (driftTick r v).bp.sys = jsRound (v.bp.sys + (r 8 - 1/2) * 4) ∧
    |(driftTick r v).bp.sys - v.bp.sys| ≤ 5/2 ∧
    (driftTick r v).bp.dia = v.bp.dia.map (fun d => jsRound (d + (r 9 - 1/2) * 3)) ∧
    (∀ d : ℚ, |jsRound (d + (r 9 - 1/2) * 3) - d| ≤ 2) ∧
    (driftTick r v).hr.source = v.hr.source ∧
    (driftTick r v).bp.source = v.bp.source := by
  refine ⟨rfl, rfl, rfl, rfl,
    drop_one_append_length _ _ hhr, drop_one_append_length _ _ hspo2,
    drop_one_append_length _ _ htemp, drop_one_append_length _ _ hrr,
    ?_, ?_, ?_, ?_, rfl, rfl, rfl, rfl, rfl, ?_, rfl, ?_, rfl, rfl⟩
  · have h1 := (hrand 1).1
    have h2 := (hrand 1).2
    rw [abs_le]
    constructor <;> nlinarith
  · have h1 := (hrand 3).1
    have h2 := (hrand 3).2
    rw [abs_le]
    constructor <;> nlinarith
  · have h1 := (hrand 5).1
    have h2 := (hrand 5).2
    rw [abs_le]
    constructor <;> nlinarith
  · have h1 := (hrand 7).1
    have h2 := (hrand 7).2
    rw [abs_le]
    constructor <;> nlinarith
  · have h1 := (hrand 8).1
    have h2 := (hrand 8).2
    have hx : |(v.bp.sys + (r 8 - 1/2) * 4) - v.bp.sys| ≤ 2 := by
      rw [abs_le]
      constructor <;> nlinarith
    have hround : |jsRound (v.bp.sys + (r 8 - 1/2) * 4) - (v.bp.sys + (r 8 - 1/2) * 4)| ≤ 1/2 := by
      rw [abs_sub_comm]
      exact abs_sub_round (v.bp.sys + (r 8 - 1/2) * 4)
    calc |(driftTick r v).bp.sys - v.bp.sys|
        ≤ |jsRound (v.bp.sys + (r 8 - 1/2) * 4) - (v.bp.sys + (r 8 - 1/2) * 4)| +
          |(v.bp.sys + (r 8 - 1/2) * 4) - v.bp.sys| := abs_sub_le _ _ _
      _ ≤ 1/2 + 2 := add_le_add hround hx
      _ ≤ 5/2 := by norm_num
  · intro d
    have h1 := (hrand 9).1
    have h2 := (hrand 9).2
    have hx : |(d + (r 9 - 1/2) * 3) - d| ≤ 3/2 := by
      rw [abs_le]
      constructor <;> nlinarith
    have hround : |jsRound (d + (r 9 - 1/2) * 3) - (d + (r 9 - 1/2) * 3)| ≤ 1/2 := by
      rw [abs_sub_comm]
      exact abs_sub_round (d + (r 9 - 1/2) * 3)
    calc |jsRound (d + (r 9 - 1/2) * 3) - d|
        ≤ |jsRound (d + (r 9 - 1/2) * 3) - (d + (r 9 - 1/2) * 3)| +
          |(d + (r 9 - 1/2) * 3) - d| := abs_sub_le _ _ _
      _ ≤ 1/2 + 3/2 := add_le_add hround hx
      _ ≤ 2 := by norm_num

/-- C8 amended witness: the drift theorem applied to the constant
draw 1/2 and the concrete demo snapshot, checking an advanced trend,
a preserved length, an independently drawn value and the diastolic
nudge. -/
theorem driftTick_spec_check :
    (driftTick (fun _ => 1/2) demoVitals).spo2.trend =
      demoVitals.spo2.trend.drop 1 ++
        [{ time := "now", value := demoVitals.spo2.value + ((1:ℚ)/2 - 1/2) * 2 }] ∧
    (driftTick (fun _ => 1/2) demoVitals).hr.trend.length = demoVitals.hr.trend.length ∧
    (driftTick (fun _ => 1/2) demoVitals).hr.value =
      jsRound (demoVitals.hr.value + ((1:ℚ)/2 - 1/2) * 4) ∧
    (driftTick (fun _ => 1/2) demoVitals).bp.dia =
      demoVitals.bp.dia.map (fun d => jsRound (d + ((1:ℚ)/2 - 1/2) * 3)) ∧
    |jsRound ((76:ℚ) + ((1:ℚ)/2 - 1/2) * 3) - 76| ≤ 2 := by
  obtain ⟨e1, e2, e3, e4, l1, l2, l3, l4, b1, b2, b3, b4, v1, v2, v3, v4, s1, s2, d1, d2,
      so1, so2⟩ :=
    driftTick_spec (fun _ => 1/2) demoVitals (fun i => by norm_num)
      (by simp [demoVitals]) (by simp [demoVitals]) (by simp [demoVitals]) (by simp [demoVitals])
  exact ⟨e2, l1, v1, d1, d2 76⟩

end FhirDashboard
